import Mathlib

/-!
Verification of the RoBERTa fine-tuning drivers.

Shallow embedding of `src/run_Roberta_model.py` (functions
`model_train_validate_test` and `model_load_test`).  The ML computation
itself (forward pass, optimizer, scheduler) is an external collaborator:
the measured quantities of each epoch (losses, accuracies, per-example
probabilities of class 1, resulting model/optimizer snapshots) are supplied
by an oracle `env : ℕ → EpochResult`.  What is embedded faithfully is the
orchestration: the early-stopping bookkeeping, the checkpoint record and its
save/load, the history lists, and the prediction CSV export.

Real-number quantities (accuracies, probabilities, losses) are embedded as
rationals `ℚ`; the claims under study are order comparisons and exact
copies, which the idealisation preserves.
-/

namespace RobertaRun

/-- One row of the prediction export built at lines 168-171 / 214-217 of
run_Roberta_model.py: `prob_0 = 1 - prob_1` and
`prediction = 0 if prob_0 > prob_1 else 1`. -/
structure PredRow where
  prob_0 : ℚ
  prob_1 : ℚ
  prediction : ℕ
  deriving Repr, DecidableEq, Inhabited

/-- The per-row construction at lines 168-170 / 214-216: a dataframe built
from the class-1 probabilities, then `prob_0 = 1 - prob_1`, then the
decision `0 if prob_0 > prob_1 else 1`. -/
def predictionRows (all_prob : List ℚ) : List PredRow :=
  all_prob.map (fun p1 =>
    { prob_0 := 1 - p1
      prob_1 := p1
      prediction := if 1 - p1 > p1 then 0 else 1 })

/-- The tabular file handed to `to_csv`: the column order is fixed by the
reordering to prob_0, prob_1, prediction at line 171 / 217, and the file is
written with `index=False`. -/
structure PredictionCsv where
  columns : List String
  rows : List PredRow
  index : Bool
  deriving Repr, DecidableEq

/-- Lines 168-172 / 214-217: reorder the columns and write without index. -/
def exportPredictions (all_prob : List ℚ) : PredictionCsv :=
  { columns := ["prob_0", "prob_1", "prediction"]
    rows := predictionRows all_prob
    index := false }

/-- The checkpoint record saved by `torch.save` at lines 150-161.
Model and optimizer snapshots are opaque to the orchestration and carried
as abstract tokens.  The field names follow the dictionary keys. -/
structure Checkpoint where
  epoch : ℕ
  model : ℕ
  optimizer : ℕ
  best_score : ℚ
  epochs_count : List ℕ
  train_losses : List ℚ
  train_accuracy : List ℚ
  valid_losses : List ℚ
  valid_accuracy : List ℚ
  valid_auc : List ℚ
  deriving Repr, DecidableEq

/-- What one epoch of external ML computation produces: the quantities
returned by `train(...)` and `validate(...)` for this epoch, the test-pass
probabilities `all_prob` from `validate(model, test_loader)`, and the
model/optimizer snapshots after the updates of the epoch. -/
structure EpochResult where
  train_loss : ℚ
  train_accuracy : ℚ
  valid_loss : ℚ
  valid_accuracy : ℚ
  test_probs : List ℚ
  model_state : ℕ
  optimizer_state : ℕ
  deriving Repr, DecidableEq

/-- The knobs of `model_train_validate_test` that the orchestration reads. -/
structure Config where
  epochs : ℕ
  patience : ℕ
  if_save_model : Bool
  deriving Repr, DecidableEq

/-- The mutable locals of `model_train_validate_test` during the epoch
loop, plus logs of the externally visible writes (checkpoint saves and
prediction-CSV writes, in chronological order). -/
structure TrainState where
  best_score : ℚ
  patience_counter : ℕ
  epochs_count : List ℕ
  train_losses : List ℚ
  train_accuracies : List ℚ
  valid_losses : List ℚ
  valid_accuracies : List ℚ
  valid_aucs : List ℚ
  model_state : ℕ
  optimizer_state : ℕ
  savedCheckpoints : List Checkpoint
  predictionWrites : List PredictionCsv
  stopped : Bool
  deriving Repr, DecidableEq

/-- `start_epoch`: 1 when fresh, the saved epoch plus one when resuming
(line 104). -/
def startEpoch : Option Checkpoint → ℕ
  | none => 1
  | some c => c.epoch + 1

/-- Lines 91-114: initial locals.  Fresh start zeroes everything.  When a
checkpoint is given, lines 104-114 restore `best_score`, model and
optimizer state, `epochs_count`, `train_losses` and `valid_losses`; the
checkpoint values of train_accuracy, valid_accuracy
and valid_auc are read into the fresh local names
`train_accuracy`, `valid_accuracy`, `valid_auc` — NOT into the history
lists `train_accuracies`, `valid_accuracies`, `valid_aucs` that the loop
appends to, so those three lists remain empty. -/
def initState : Option Checkpoint → TrainState
  | none =>
      { best_score := 0
        patience_counter := 0
        epochs_count := []
        train_losses := []
        train_accuracies := []
        valid_losses := []
        valid_accuracies := []
        valid_aucs := []
        model_state := 0
        optimizer_state := 0
        savedCheckpoints := []
        predictionWrites := []
        stopped := false }
  | some c =>
      { best_score := c.best_score
        patience_counter := 0
        epochs_count := c.epochs_count
        train_losses := c.train_losses
        train_accuracies := []
        valid_losses := c.valid_losses
        valid_accuracies := []
        valid_aucs := []
        model_state := c.model
        optimizer_state := c.optimizer
        savedCheckpoints := []
        predictionWrites := []
        stopped := false }

/-- The checkpoint dictionary built at lines 150-160 from the state at
save time, after `best_score` has been updated for the current epoch. -/
def mkCheckpoint (epoch : ℕ) (s : TrainState) : Checkpoint :=
  { epoch := epoch
    model := s.model_state
    optimizer := s.optimizer_state
    best_score := s.best_score
    epochs_count := s.epochs_count
    train_losses := s.train_losses
    train_accuracy := s.train_accuracies
    valid_losses := s.valid_losses
    valid_accuracy := s.valid_accuracies
    valid_auc := s.valid_aucs }

/-- One iteration of the `for epoch in range(start_epoch, epochs + 1)` loop
(lines 123-176): append to the history lists, take the train/validate
results from the oracle, then the early-stopping branch — on
`epoch_accuracy < best_score` only bump `patience_counter`; otherwise set
`best_score = epoch_accuracy`, reset the counter, save a checkpoint when
`if_save_model`, and always run the test pass and write the prediction
CSV.  Finally `if patience_counter >= patience: break` sets the stop
flag. -/
def epochStep (cfg : Config) (res : EpochResult) (epoch : ℕ)
    (s : TrainState) : TrainState :=
  let s1 : TrainState :=
    { s with
      epochs_count := s.epochs_count ++ [epoch]
      train_losses := s.train_losses ++ [res.train_loss]
      train_accuracies := s.train_accuracies ++ [res.train_accuracy]
      valid_losses := s.valid_losses ++ [res.valid_loss]
      valid_accuracies := s.valid_accuracies ++ [res.valid_accuracy]
      model_state := res.model_state
      optimizer_state := res.optimizer_state }
  let s2 : TrainState :=
    if res.valid_accuracy < s1.best_score then
      { s1 with patience_counter := s1.patience_counter + 1 }
    else
      let s3 : TrainState :=
        { s1 with best_score := res.valid_accuracy, patience_counter := 0 }
      let s4 : TrainState :=
        if cfg.if_save_model then
          { s3 with
            savedCheckpoints := s3.savedCheckpoints ++ [mkCheckpoint epoch s3] }
        else s3
      { s4 with
        predictionWrites := s4.predictionWrites ++ [exportPredictions res.test_probs] }
  if cfg.patience ≤ s2.patience_counter then { s2 with stopped := true } else s2

/-- Run the loop body over the remaining epoch indices; a set stop flag
(the `break`) prevents every later iteration. -/
def runEpochs (cfg : Config) (env : ℕ → EpochResult) :
    List ℕ → TrainState → TrainState
  | [], s => s
  | e :: rest, s =>
      if s.stopped then s
      else runEpochs cfg env rest (epochStep cfg (env e) e s)

/-- `range(start_epoch, epochs + 1)`. -/
def epochList (cfg : Config) (ckpt : Option Checkpoint) : List ℕ :=
  List.range' (startEpoch ckpt) (cfg.epochs + 1 - startEpoch ckpt)

/-- The whole orchestration of `model_train_validate_test`: initialise the
locals (restoring from `ckpt` when given) and run the epoch loop, with the
external ML computation supplied by `env`. -/
def model_train_validate_test (cfg : Config) (env : ℕ → EpochResult)
    (ckpt : Option Checkpoint) : TrainState :=
  runEpochs cfg env (epochList cfg ckpt) (initState ckpt)

/-- `sys.platform` values distinguished by `model_load_test`. -/
inductive Platform
  | linux
  | linux2
  | darwin
  | win32
  deriving Repr, DecidableEq

/-- The only device the scripts ever construct is the cuda device. -/
inductive Device
  | cuda
  deriving Repr, DecidableEq

/-- How `torch.load` is invoked at lines 196-199: plainly, or with a
`map_location` remapping to the given device. -/
inductive LoadMode
  | direct
  | remapped (dev : Device)
  deriving Repr, DecidableEq

/-- Lines 196-199: when the platform string is linux or linux2, load
directly, else load with `map_location=device` where device is the cuda device. -/
def checkpointLoadMode (p : Platform) : LoadMode :=
  if p = Platform.linux ∨ p = Platform.linux2 then LoadMode.direct
  else LoadMode.remapped Device.cuda

/-- Modelled from the spec: "direct load on the training device, remapped
load otherwise" — training runs on the hardcoded `cuda` device of the
linux training environment, so "running on the training device" is read as
`sys.platform` reporting linux. -/
def onTrainingDevice (p : Platform) : Prop :=
  p = Platform.linux ∨ p = Platform.linux2

/-- What `model_load_test` leaves behind: the way the checkpoint was
loaded, the model state taken from it, and the written prediction CSV. -/
structure LoadTestResult where
  loadMode : LoadMode
  loadedModel : ℕ
  csv : PredictionCsv
  deriving Repr, DecidableEq

/-- The orchestration of `model_load_test` (lines 179-220): device-aware
checkpoint load, `model.load_state_dict(checkpoint["model"])`, one test
pass producing `all_prob` (supplied by the oracle argument), and the same
prediction export as the training driver. -/
def model_load_test (p : Platform) (c : Checkpoint)
    (test_probs : List ℚ) : LoadTestResult :=
  { loadMode := checkpointLoadMode p
    loadedModel := c.model
    csv := exportPredictions test_probs }

/-! ## Characterisation of one epoch step -/

/-- The new value of the patience counter after an epoch. -/
theorem epochStep_patience_counter (cfg : Config) (res : EpochResult)
    (epoch : ℕ) (s : TrainState) :
    (epochStep cfg res epoch s).patience_counter
      = if res.valid_accuracy < s.best_score then s.patience_counter + 1 else 0 := by
  unfold epochStep
  by_cases h : res.valid_accuracy < s.best_score <;>
    by_cases hs : cfg.if_save_model <;>
      simp_all [mkCheckpoint] <;> split_ifs <;> simp_all

/-- The new value of `best_score` after an epoch. -/
theorem epochStep_best_score (cfg : Config) (res : EpochResult)
    (epoch : ℕ) (s : TrainState) :
    (epochStep cfg res epoch s).best_score
      = if res.valid_accuracy < s.best_score then s.best_score else res.valid_accuracy := by
  unfold epochStep
  by_cases h : res.valid_accuracy < s.best_score <;>
    by_cases hs : cfg.if_save_model <;>
      simp_all [mkCheckpoint] <;> split_ifs <;> simp_all

/-- The stop flag is set exactly by the `break` check on the new counter. -/
theorem epochStep_stopped (cfg : Config) (res : EpochResult)
    (epoch : ℕ) (s : TrainState) :
    (epochStep cfg res epoch s).stopped
      = if cfg.patience ≤ (epochStep cfg res epoch s).patience_counter
        then true else s.stopped := by
  rw [epochStep_patience_counter]
  unfold epochStep
  by_cases h : res.valid_accuracy < s.best_score <;>
    by_cases hs : cfg.if_save_model <;>
      simp_all [mkCheckpoint] <;> split_ifs <;> simp_all

/-- The per-epoch validation accuracy is always appended to the history. -/
theorem epochStep_valid_accuracies (cfg : Config) (res : EpochResult)
    (epoch : ℕ) (s : TrainState) :
    (epochStep cfg res epoch s).valid_accuracies
      = s.valid_accuracies ++ [res.valid_accuracy] := by
  unfold epochStep
  by_cases h : res.valid_accuracy < s.best_score <;>
    by_cases hs : cfg.if_save_model <;>
      simp_all [mkCheckpoint] <;> split_ifs <;> simp_all

/-- The per-epoch training accuracy is always appended to the history. -/
theorem epochStep_train_accuracies (cfg : Config) (res : EpochResult)
    (epoch : ℕ) (s : TrainState) :
    (epochStep cfg res epoch s).train_accuracies
      = s.train_accuracies ++ [res.train_accuracy] := by
  unfold epochStep
  by_cases h : res.valid_accuracy < s.best_score <;>
    by_cases hs : cfg.if_save_model <;>
      simp_all [mkCheckpoint] <;> split_ifs <;> simp_all

/-- Nothing in the loop ever appends to `valid_aucs`. -/
theorem epochStep_valid_aucs (cfg : Config) (res : EpochResult)
    (epoch : ℕ) (s : TrainState) :
    (epochStep cfg res epoch s).valid_aucs = s.valid_aucs := by
  unfold epochStep
  by_cases h : res.valid_accuracy < s.best_score <;>
    by_cases hs : cfg.if_save_model <;>
      simp_all [mkCheckpoint] <;> split_ifs <;> simp_all

/-- The checkpoint an improving epoch saves, spelled out from the state at
the start of the epoch. -/
def savedCkpt (res : EpochResult) (epoch : ℕ) (s : TrainState) : Checkpoint :=
  { epoch := epoch
    model := res.model_state
    optimizer := res.optimizer_state
    best_score := res.valid_accuracy
    epochs_count := s.epochs_count ++ [epoch]
    train_losses := s.train_losses ++ [res.train_loss]
    train_accuracy := s.train_accuracies ++ [res.train_accuracy]
    valid_losses := s.valid_losses ++ [res.valid_loss]
    valid_accuracy := s.valid_accuracies ++ [res.valid_accuracy]
    valid_auc := s.valid_aucs }

/-- The checkpoint log grows by exactly one record when the epoch improves
(ties included) and `if_save_model` is set; otherwise it is unchanged. -/
theorem epochStep_savedCheckpoints (cfg : Config) (res : EpochResult)
    (epoch : ℕ) (s : TrainState) :
    (epochStep cfg res epoch s).savedCheckpoints
      = if res.valid_accuracy < s.best_score then s.savedCheckpoints
        else if cfg.if_save_model then
          s.savedCheckpoints ++ [savedCkpt res epoch s]
        else s.savedCheckpoints := by
  unfold epochStep savedCkpt mkCheckpoint
  by_cases h : res.valid_accuracy < s.best_score <;>
    by_cases hs : cfg.if_save_model <;>
      simp_all <;> split_ifs <;> simp_all

/-- The prediction CSV is written exactly on improving epochs (ties
included), independently of `if_save_model`. -/
theorem epochStep_predictionWrites (cfg : Config) (res : EpochResult)
    (epoch : ℕ) (s : TrainState) :
    (epochStep cfg res epoch s).predictionWrites
      = if res.valid_accuracy < s.best_score then s.predictionWrites
        else s.predictionWrites ++ [exportPredictions res.test_probs] := by
  unfold epochStep
  by_cases h : res.valid_accuracy < s.best_score <;>
    by_cases hs : cfg.if_save_model <;>
      simp_all [mkCheckpoint] <;> split_ifs <;> simp_all

/-! ## Run-level invariants -/

/-- `best_score` never decreases over one epoch. -/
theorem epochStep_best_score_le (cfg : Config) (res : EpochResult)
    (epoch : ℕ) (s : TrainState) :
    s.best_score ≤ (epochStep cfg res epoch s).best_score := by
  rw [epochStep_best_score]
  split_ifs with h
  · exact le_refl _
  · exact le_of_not_lt h

/-- Invariant carried through the run: the best scores stored in the
checkpoint log are sorted, and all of them are at most the live
`best_score`. -/
def CkptInv (s : TrainState) : Prop :=
  List.Sorted (fun a b => a ≤ b) (s.savedCheckpoints.map Checkpoint.best_score) ∧
  ∀ c ∈ s.savedCheckpoints, c.best_score ≤ s.best_score

theorem epochStep_ckptInv (cfg : Config) (res : EpochResult) (epoch : ℕ)
    (s : TrainState) (h : CkptInv s) : CkptInv (epochStep cfg res epoch s) := by
  obtain ⟨hsort, hle⟩ := h
  constructor
  · rw [epochStep_savedCheckpoints]
    split_ifs with h1 h2
    · exact hsort
    · rw [List.map_append]
      refine List.pairwise_append.2 ⟨hsort, by simp, ?_⟩
      intro a ha b hb
      simp only [List.map_cons, List.map_nil, List.mem_singleton] at hb
      subst hb
      simp only [List.mem_map] at ha
      obtain ⟨c, hc, rfl⟩ := ha
      calc c.best_score ≤ s.best_score := hle c hc
        _ ≤ (savedCkpt res epoch s).best_score := le_of_not_lt h1
    · exact hsort
  · intro c hc
    rw [epochStep_savedCheckpoints] at hc
    rw [epochStep_best_score]
    split_ifs at hc ⊢ with h1 h2
    · exact hle c hc
    · rcases List.mem_append.1 hc with hold | hnew
      · exact (hle c hold).trans (le_of_not_lt h1)
      · simp only [List.mem_singleton] at hnew
        subst hnew
        exact le_refl _
    · exact (hle c hc).trans (le_of_not_lt h1)

theorem runEpochs_ckptInv (cfg : Config) (env : ℕ → EpochResult)
    (es : List ℕ) : ∀ s : TrainState, CkptInv s → CkptInv (runEpochs cfg env es s) := by
  induction es with
  | nil => intro s h; exact h
  | cons e rest ih =>
      intro s h
      unfold runEpochs
      split_ifs with hst
      · exact h
      · exact ih _ (epochStep_ckptInv cfg (env e) e s h)

theorem initState_ckptInv (ckpt : Option Checkpoint) : CkptInv (initState ckpt) := by
  cases ckpt <;> simp [CkptInv, initState]

/-- In a run started without a checkpoint, the live `best_score` always
equals the maximum of 0 and all recorded validation accuracies. -/
theorem epochStep_best_foldl (cfg : Config) (res : EpochResult) (epoch : ℕ)
    (s : TrainState) (h : s.best_score = s.valid_accuracies.foldl max 0) :
    (epochStep cfg res epoch s).best_score
      = (epochStep cfg res epoch s).valid_accuracies.foldl max 0 := by
  rw [epochStep_best_score, epochStep_valid_accuracies, List.foldl_append, h]
  by_cases hlt : res.valid_accuracy < s.valid_accuracies.foldl max 0
  · simp [hlt, max_eq_left hlt.le]
  · simp [hlt, max_eq_right (le_of_not_lt hlt)]

theorem runEpochs_best_foldl (cfg : Config) (env : ℕ → EpochResult)
    (es : List ℕ) : ∀ s : TrainState,
    s.best_score = s.valid_accuracies.foldl max 0 →
    (runEpochs cfg env es s).best_score
      = (runEpochs cfg env es s).valid_accuracies.foldl max 0 := by
  induction es with
  | nil => intro s h; exact h
  | cons e rest ih =>
      intro s h
      unfold runEpochs
      split_ifs with hst
      · exact h
      · exact ih _ (epochStep_best_foldl cfg (env e) e s h)

/-- Invariant for C10: `valid_aucs` is empty and so is the `valid_auc`
field of every checkpoint written so far. -/
theorem epochStep_aucInv (cfg : Config) (res : EpochResult) (epoch : ℕ)
    (s : TrainState)
    (h : s.valid_aucs = [] ∧ ∀ c ∈ s.savedCheckpoints, c.valid_auc = []) :
    (epochStep cfg res epoch s).valid_aucs = [] ∧
      ∀ c ∈ (epochStep cfg res epoch s).savedCheckpoints, c.valid_auc = [] := by
  obtain ⟨h1, h2⟩ := h
  refine ⟨by rw [epochStep_valid_aucs]; exact h1, ?_⟩
  intro c hc
  rw [epochStep_savedCheckpoints] at hc
  split_ifs at hc with ha hs
  · exact h2 c hc
  · rcases List.mem_append.1 hc with hold | hnew
    · exact h2 c hold
    · simp only [List.mem_singleton] at hnew
      subst hnew
      simpa [savedCkpt] using h1
  · exact h2 c hc

theorem runEpochs_aucInv (cfg : Config) (env : ℕ → EpochResult)
    (es : List ℕ) : ∀ s : TrainState,
    (s.valid_aucs = [] ∧ ∀ c ∈ s.savedCheckpoints, c.valid_auc = []) →
    ((runEpochs cfg env es s).valid_aucs = [] ∧
      ∀ c ∈ (runEpochs cfg env es s).savedCheckpoints, c.valid_auc = []) := by
  induction es with
  | nil => intro s h; exact h
  | cons e rest ih =>
      intro s h
      unfold runEpochs
      split_ifs with hst
      · exact h
      · exact ih _ (epochStep_aucInv cfg (env e) e s h)

/-- The shape every written prediction CSV satisfies (three columns in
order, no index, `prob_0 = 1 - prob_1` in every row). -/
def CsvShapeOk (w : PredictionCsv) : Prop :=
  w.columns = ["prob_0", "prob_1", "prediction"] ∧ w.index = false ∧
    ∀ r ∈ w.rows, r.prob_0 = 1 - r.prob_1

theorem exportPredictions_shapeOk (l : List ℚ) : CsvShapeOk (exportPredictions l) := by
  refine ⟨rfl, rfl, ?_⟩
  intro r hr
  simp only [exportPredictions, predictionRows, List.mem_map] at hr
  obtain ⟨p1, _, rfl⟩ := hr
  rfl

theorem epochStep_csvShape (cfg : Config) (res : EpochResult) (epoch : ℕ)
    (s : TrainState) (h : ∀ w ∈ s.predictionWrites, CsvShapeOk w) :
    ∀ w ∈ (epochStep cfg res epoch s).predictionWrites, CsvShapeOk w := by
  intro w hw
  rw [epochStep_predictionWrites] at hw
  split_ifs at hw with ha
  · exact h w hw
  · rcases List.mem_append.1 hw with hold | hnew
    · exact h w hold
    · simp only [List.mem_singleton] at hnew
      subst hnew
      exact exportPredictions_shapeOk res.test_probs

theorem runEpochs_csvShape (cfg : Config) (env : ℕ → EpochResult)
    (es : List ℕ) : ∀ s : TrainState,
    (∀ w ∈ s.predictionWrites, CsvShapeOk w) →
    ∀ w ∈ (runEpochs cfg env es s).predictionWrites, CsvShapeOk w := by
  induction es with
  | nil => intro s h; exact h
  | cons e rest ih =>
      intro s h
      unfold runEpochs
      split_ifs with hst
      · exact h
      · exact ih _ (epochStep_csvShape cfg (env e) e s h)

/-! ## Claims -/

/-- C1, counterexample: the derived decision does NOT resolve the boundary
case `prob_0 == prob_1` to 0 — `prediction = 0 if prob_0 > prob_1 else 1`
yields 1 on a tie — and the 4-example scenario with class-1 probabilities
[0.9, 0.2, 0.5, 0.51] yields decisions [1, 0, 1, 1], not [1, 0, 0, 1]. -/
theorem C1_counterexample :
    (predictionRows [(9:ℚ)/10, 2/10, 5/10, 51/100]).map PredRow.prediction
        = [1, 0, 1, 1] ∧
    ¬ (predictionRows [(9:ℚ)/10, 2/10, 5/10, 51/100]).map PredRow.prediction
        = [1, 0, 0, 1] ∧
    (predictionRows [(1:ℚ)/2]).map PredRow.prediction = [1] ∧
    ¬ ((1:ℚ)/2 > 1 - (1:ℚ)/2) := by
  refine ⟨?_, ?_, ?_, ?_⟩ <;> simp [predictionRows] <;> norm_num

/-- C1 (amended): for every exported row the decision equals 1 exactly when
`prob_1 ≥ prob_0` and 0 exactly when `prob_0 > prob_1`, so the boundary
case `prob_0 == prob_1` resolves to 1; the 4-example scenario with class-1
probabilities [0.9, 0.2, 0.5, 0.51] yields decisions [1, 0, 1, 1]. -/
theorem C1_decision_rule :
    (∀ (all_prob : List ℚ), ∀ r ∈ predictionRows all_prob,
        (r.prediction = 1 ↔ r.prob_0 ≤ r.prob_1) ∧
        (r.prediction = 0 ↔ r.prob_1 < r.prob_0)) ∧
    (predictionRows [(9:ℚ)/10, 2/10, 5/10, 51/100]).map PredRow.prediction
        = [1, 0, 1, 1] := by
  constructor
  · intro all_prob r hr
    simp only [predictionRows, List.mem_map] at hr
    obtain ⟨p1, _, rfl⟩ := hr
    by_cases h : 1 - p1 > p1 <;> simp [h] <;> linarith
  · simp [predictionRows]
    norm_num

/-- Witness for C1 at the tie row `prob_1 = 1/2`. -/
theorem C1_decision_rule_witness :
    ((predictionRows [(1:ℚ)/2]).headI.prediction = 1 ↔
      (predictionRows [(1:ℚ)/2]).headI.prob_0 ≤ (predictionRows [(1:ℚ)/2]).headI.prob_1) ∧
    ((predictionRows [(1:ℚ)/2]).headI.prediction = 0 ↔
      (predictionRows [(1:ℚ)/2]).headI.prob_1 < (predictionRows [(1:ℚ)/2]).headI.prob_0) :=
  C1_decision_rule.1 [(1:ℚ)/2] (predictionRows [(1:ℚ)/2]).headI
    (by simp [predictionRows])

/-- C2: `best_score` never decreases over any epoch step, and hence across
every run of `model_train_validate_test` the best scores stored in the
checkpoint log, in write order, are non-decreasing. -/
theorem C2_best_score_monotone :
    ∀ (cfg : Config) (env : ℕ → EpochResult) (ckpt : Option Checkpoint)
      (res : EpochResult) (epoch : ℕ) (s : TrainState),
      s.best_score ≤ (epochStep cfg res epoch s).best_score ∧
      List.Sorted (fun a b => a ≤ b)
        ((model_train_validate_test cfg env ckpt).savedCheckpoints.map
          Checkpoint.best_score) := by
  intro cfg env ckpt res epoch s
  refine ⟨epochStep_best_score_le cfg res epoch s, ?_⟩
  exact (runEpochs_ckptInv cfg env (epochList cfg ckpt) (initState ckpt)
    (initState_ckptInv ckpt)).1

/-- C3, counterexample: with `if_save_model = False` an epoch whose
validation accuracy (1) is ≥ that of every previous epoch (there are none) still
writes no checkpoint, refuting the claimed "if and only if". -/
theorem C3_counterexample :
    (model_train_validate_test ⟨1, 5, false⟩
        (fun _ => ⟨0, 1, 0, 1, [], 1, 1⟩) none).valid_accuracies = [1] ∧
    (model_train_validate_test ⟨1, 5, false⟩
        (fun _ => ⟨0, 1, 0, 1, [], 1, 1⟩) none).savedCheckpoints = [] := by
  constructor <;> decide

/-- C3 (amended): a checkpoint is written during an epoch iff
`if_save_model` is set and the validation accuracy of the epoch is ≥ the
current `best_score` (ties count as improvement), and at no other time;
in a run started without a checkpoint `best_score` always equals the
maximum of 0 and all recorded validation accuracies, so for nonnegative
accuracies the condition says the accuracy of the epoch is ≥ that of
every previous epoch. -/
theorem C3_checkpoint_iff :
    ∀ (cfg : Config) (res : EpochResult) (epoch : ℕ) (s : TrainState),
      ((epochStep cfg res epoch s).savedCheckpoints ≠ s.savedCheckpoints
        ↔ (cfg.if_save_model = true ∧ s.best_score ≤ res.valid_accuracy)) ∧
      ∀ (env : ℕ → EpochResult),
        (model_train_validate_test cfg env none).best_score
          = (model_train_validate_test cfg env none).valid_accuracies.foldl max 0 := by
  intro cfg res epoch s
  constructor
  · rw [epochStep_savedCheckpoints]
    split_ifs with h1 h2
    · simp [not_le.2 h1]
    · simp [h2, le_of_not_lt h1]
    · simp only [ne_eq, not_true_eq_false, false_iff, not_and]
      intro hsave
      exact absurd hsave h2
  · intro env
    exact runEpochs_best_foldl cfg env (epochList cfg none) (initState none) rfl

/-- Witness for C3 (amended) at a saving epoch. -/
theorem C3_checkpoint_iff_witness :
    (model_train_validate_test ⟨1, 5, true⟩
        (fun _ => ⟨0, 1, 0, 1, [], 1, 1⟩) none).best_score
      = (model_train_validate_test ⟨1, 5, true⟩
          (fun _ => ⟨0, 1, 0, 1, [], 1, 1⟩) none).valid_accuracies.foldl max 0 :=
  (C3_checkpoint_iff ⟨1, 5, true⟩ ⟨0, 1, 0, 1, [], 1, 1⟩ 1 (initState none)).2
    (fun _ => ⟨0, 1, 0, 1, [], 1, 1⟩)

/-- C4: in a run that has not already stopped, the loop breaks after an
epoch iff the patience counter — which becomes `old + 1` on an epoch whose
validation accuracy is below best-seen and 0 otherwise — has reached the
configured threshold, and when the break first triggers the counter equals
the threshold exactly (never beyond it). -/
theorem C4_early_stop :
    ∀ (cfg : Config) (res : EpochResult) (epoch : ℕ) (s : TrainState),
      s.stopped = false →
      (((epochStep cfg res epoch s).stopped = true
          ↔ cfg.patience ≤ (epochStep cfg res epoch s).patience_counter) ∧
        ((epochStep cfg res epoch s).patience_counter
          = if res.valid_accuracy < s.best_score then s.patience_counter + 1 else 0) ∧
        (s.patience_counter < cfg.patience →
          (epochStep cfg res epoch s).stopped = true →
          (epochStep cfg res epoch s).patience_counter = cfg.patience)) := by
  intro cfg res epoch s hstop
  have hc := epochStep_patience_counter cfg res epoch s
  have hs := epochStep_stopped cfg res epoch s
  refine ⟨?_, hc, ?_⟩
  · rw [hs]
    split_ifs with h
    · simp [h]
    · simp [hstop, h]
  · intro hlt htrig
    rw [hs] at htrig
    split_ifs at htrig with h
    · rw [hc] at h ⊢
      split_ifs at h ⊢ with hacc
      · omega
      · omega
    · rw [hstop] at htrig
      exact absurd htrig (by simp)

/-- Witness for C4: one bad epoch with patience 1 stops the loop with the
counter exactly at the threshold. -/
theorem C4_early_stop_witness :
    (epochStep ⟨10, 1, true⟩ ⟨0, 0, 0, 0, [], 0, 0⟩ 1
        { initState none with best_score := 1 }).stopped = true :=
  ((C4_early_stop ⟨10, 1, true⟩ ⟨0, 0, 0, 0, [], 0, 0⟩ 1
      { initState none with best_score := 1 } rfl).1).2 (by decide)

/-- C5: a checkpoint newly written during an epoch records the index of
that epoch and the post-update `best_score`, and restarting from it restores
exactly that `best_score` and sets the starting epoch to the saved epoch
plus one. -/
theorem C5_checkpoint_roundtrip :
    ∀ (cfg : Config) (res : EpochResult) (epoch : ℕ) (s : TrainState)
      (c : Checkpoint),
      c ∈ (epochStep cfg res epoch s).savedCheckpoints →
      c ∉ s.savedCheckpoints →
      (initState (some c)).best_score = (epochStep cfg res epoch s).best_score ∧
      (initState (some c)).best_score = c.best_score ∧
      startEpoch (some c) = epoch + 1 ∧
      c.epoch = epoch := by
  intro cfg res epoch s c hin hnot
  rw [epochStep_savedCheckpoints] at hin
  split_ifs at hin with h1 h2
  · exact absurd hin hnot
  · rcases List.mem_append.1 hin with hold | hnew
    · exact absurd hold hnot
    · simp only [List.mem_singleton] at hnew
      subst hnew
      rw [epochStep_best_score, if_neg h1]
      exact ⟨rfl, rfl, rfl, rfl⟩
  · exact absurd hin hnot

/-- Witness for C5: the checkpoint written by the first improving epoch of
a fresh run round-trips its `best_score` and epoch counter. -/
theorem C5_checkpoint_roundtrip_witness :
    (initState (some (savedCkpt ⟨0, 1, 0, 1, [], 7, 8⟩ 1 (initState none)))).best_score
        = (epochStep ⟨5, 2, true⟩ ⟨0, 1, 0, 1, [], 7, 8⟩ 1 (initState none)).best_score ∧
    (initState (some (savedCkpt ⟨0, 1, 0, 1, [], 7, 8⟩ 1 (initState none)))).best_score
        = (savedCkpt ⟨0, 1, 0, 1, [], 7, 8⟩ 1 (initState none)).best_score ∧
    startEpoch (some (savedCkpt ⟨0, 1, 0, 1, [], 7, 8⟩ 1 (initState none))) = 1 + 1 ∧
    (savedCkpt ⟨0, 1, 0, 1, [], 7, 8⟩ 1 (initState none)).epoch = 1 :=
  C5_checkpoint_roundtrip ⟨5, 2, true⟩ ⟨0, 1, 0, 1, [], 7, 8⟩ 1 (initState none)
    (savedCkpt ⟨0, 1, 0, 1, [], 7, 8⟩ 1 (initState none)) (by decide) (by decide)

/-- C6: resuming from a checkpoint does NOT restore the accuracy and AUC
history arrays.  At a checkpoint whose `train_accuracy` history is [9/10],
`epochs_count` and the loss histories are restored, but
`train_accuracies`, `valid_accuracies` and `valid_aucs` re-start as fresh
empty lists (the loaded values are bound to dead locals), so the next
history of the next epoch is [4/5] instead of [9/10, 4/5]. -/
theorem C6_history_not_restored :
    (initState (some ⟨3, 7, 8, 9/10, [1, 2, 3], [1/2, 1/3, 1/4], [9/10],
        [1/2], [8/10], [7/10]⟩)).epochs_count = [1, 2, 3] ∧
    (initState (some ⟨3, 7, 8, 9/10, [1, 2, 3], [1/2, 1/3, 1/4], [9/10],
        [1/2], [8/10], [7/10]⟩)).best_score = 9/10 ∧
    (initState (some ⟨3, 7, 8, 9/10, [1, 2, 3], [1/2, 1/3, 1/4], [9/10],
        [1/2], [8/10], [7/10]⟩)).train_accuracies = [] ∧
    (initState (some ⟨3, 7, 8, 9/10, [1, 2, 3], [1/2, 1/3, 1/4], [9/10],
        [1/2], [8/10], [7/10]⟩)).valid_accuracies = [] ∧
    (initState (some ⟨3, 7, 8, 9/10, [1, 2, 3], [1/2, 1/3, 1/4], [9/10],
        [1/2], [8/10], [7/10]⟩)).valid_aucs = [] ∧
    ¬ (initState (some ⟨3, 7, 8, 9/10, [1, 2, 3], [1/2, 1/3, 1/4], [9/10],
        [1/2], [8/10], [7/10]⟩)).train_accuracies = [9/10] ∧
    (epochStep ⟨10, 5, true⟩ ⟨1/3, 4/5, 1/3, 4/5, [], 7, 8⟩ 4
        (initState (some ⟨3, 7, 8, 9/10, [1, 2, 3], [1/2, 1/3, 1/4], [9/10],
          [1/2], [8/10], [7/10]⟩))).train_accuracies = [4/5] := by
  refine ⟨rfl, rfl, rfl, rfl, rfl, ?_, ?_⟩
  · simp [initState]
  · rw [epochStep_train_accuracies]
    rfl

/-- C7: every prediction file written — each test export of the training
driver and the file written by `model_load_test` — has exactly the three
columns `prob_0`, `prob_1`, `prediction` in that order, one row per test
example, no row index, and `prob_0 = 1 - prob_1` in every row. -/
theorem C7_prediction_csv_shape :
    ∀ (all_prob : List ℚ) (p : Platform) (c : Checkpoint) (cfg : Config)
      (env : ℕ → EpochResult) (ckpt : Option Checkpoint),
      (exportPredictions all_prob).columns = ["prob_0", "prob_1", "prediction"] ∧
      (exportPredictions all_prob).index = false ∧
      (exportPredictions all_prob).rows.length = all_prob.length ∧
      (∀ r ∈ (exportPredictions all_prob).rows, r.prob_0 = 1 - r.prob_1) ∧
      (model_load_test p c all_prob).csv = exportPredictions all_prob ∧
      (∀ w ∈ (model_train_validate_test cfg env ckpt).predictionWrites,
        CsvShapeOk w) := by
  intro all_prob p c cfg env ckpt
  refine ⟨rfl, rfl, by simp [exportPredictions, predictionRows], ?_, rfl, ?_⟩
  · exact (exportPredictions_shapeOk all_prob).2.2
  · exact runEpochs_csvShape cfg env (epochList cfg ckpt) (initState ckpt)
      (by intro w hw; simp [initState] at hw; cases ckpt <;> simp_all [initState])

/-- Witness for C7 at a one-row export. -/
theorem C7_prediction_csv_shape_witness :
    (exportPredictions [(3:ℚ)/10]).rows.headI.prob_0
      = 1 - (exportPredictions [(3:ℚ)/10]).rows.headI.prob_1 :=
  (C7_prediction_csv_shape [(3:ℚ)/10] Platform.linux
      ⟨0, 0, 0, 0, [], [], [], [], [], []⟩ ⟨1, 1, true⟩
      (fun _ => ⟨0, 0, 0, 0, [], 0, 0⟩) none).2.2.2.1
    (exportPredictions [(3:ℚ)/10]).rows.headI
    (by simp [exportPredictions, predictionRows])

/-- C8: `model_load_test` loads the model state of the checkpoint device-aware:
the load is direct exactly on the platforms of the training environment
(`sys.platform` linux/linux2, where the hardcoded `cuda` training device
lives) and remapped to the local `cuda` device otherwise; the model state
applied is the one from the checkpoint. -/
theorem C8_device_aware_load :
    ∀ (p : Platform) (c : Checkpoint) (probs : List ℚ),
      ((model_load_test p c probs).loadMode = LoadMode.direct ↔ onTrainingDevice p) ∧
      (¬ onTrainingDevice p →
        (model_load_test p c probs).loadMode = LoadMode.remapped Device.cuda) ∧
      (model_load_test p c probs).loadedModel = c.model := by
  intro p c probs
  refine ⟨?_, ?_, rfl⟩
  · simp only [model_load_test, checkpointLoadMode]
    split_ifs with h
    · simp only [true_iff]
      exact h
    · simp only [onTrainingDevice]
      constructor
      · intro hcontr
        exact absurd hcontr (by simp)
      · intro hd
        exact absurd hd h
  · intro h
    simp only [model_load_test, checkpointLoadMode]
    rw [if_neg]
    exact h

/-- Witness for C8 on a non-training platform. -/
theorem C8_device_aware_load_witness :
    (model_load_test Platform.darwin ⟨0, 0, 0, 0, [], [], [], [], [], []⟩
        []).loadMode = LoadMode.remapped Device.cuda :=
  (C8_device_aware_load Platform.darwin ⟨0, 0, 0, 0, [], [], [], [], [], []⟩
      []).2.1 (by simp [onTrainingDevice])

/-- C9: on an epoch whose validation accuracy is ≥ best-seen, the test
prediction CSV of the test pass is written regardless of `if_save_model`, while the
checkpoint log stays unchanged exactly when `if_save_model` is false. -/
theorem C9_prediction_regardless_of_save :
    ∀ (cfg : Config) (res : EpochResult) (epoch : ℕ) (s : TrainState),
      s.best_score ≤ res.valid_accuracy →
      ((epochStep cfg res epoch s).predictionWrites
          = s.predictionWrites ++ [exportPredictions res.test_probs]) ∧
      ((epochStep cfg res epoch s).savedCheckpoints = s.savedCheckpoints
          ↔ cfg.if_save_model = false) := by
  intro cfg res epoch s h
  have hn : ¬ res.valid_accuracy < s.best_score := not_lt.2 h
  refine ⟨?_, ?_⟩
  · rw [epochStep_predictionWrites, if_neg hn]
  · rw [epochStep_savedCheckpoints, if_neg hn]
    split_ifs with h2
    · simp [h2]
    · simp [h2]

/-- Witness for C9 at the first epoch of a fresh run with saving enabled:
the prediction CSV is written and the checkpoint log grows. -/
theorem C9_prediction_regardless_of_save_witness :
    ((epochStep ⟨3, 5, true⟩ ⟨0, 1, 0, 1, [1/2], 7, 8⟩ 1 (initState none)).predictionWrites
        = (initState none).predictionWrites ++ [exportPredictions [1/2]]) ∧
    ((epochStep ⟨3, 5, true⟩ ⟨0, 1, 0, 1, [1/2], 7, 8⟩ 1 (initState none)).savedCheckpoints
          = (initState none).savedCheckpoints
        ↔ (⟨3, 5, true⟩ : Config).if_save_model = false) :=
  C9_prediction_regardless_of_save ⟨3, 5, true⟩ ⟨0, 1, 0, 1, [1/2], 7, 8⟩ 1
    (initState none) (by decide)

/-- C10: in every run started without a checkpoint, `valid_aucs` starts
empty and is never appended to, so it stays empty and the `valid_auc`
field of every checkpoint written during the run is the empty list. -/
theorem C10_valid_aucs_empty :
    ∀ (cfg : Config) (env : ℕ → EpochResult),
      (model_train_validate_test cfg env none).valid_aucs = [] ∧
      ∀ c ∈ (model_train_validate_test cfg env none).savedCheckpoints,
        c.valid_auc = [] := by
  intro cfg env
  exact runEpochs_aucInv cfg env (epochList cfg none) (initState none)
    ⟨rfl, by simp [initState]⟩

/-- Witness for C10 on a two-epoch run that writes checkpoints. -/
theorem C10_valid_aucs_empty_witness :
    (model_train_validate_test ⟨2, 5, true⟩
        (fun _ => ⟨0, 1, 0, 1, [], 7, 8⟩) none).valid_aucs = [] :=
  (C10_valid_aucs_empty ⟨2, 5, true⟩ (fun _ => ⟨0, 1, 0, 1, [], 7, 8⟩)).1

end RobertaRun
